/- Verification of eyelink-cni (src/eyelinkcnicore.py).

The program is a thin orchestration layer over two vendor SDKs (pylink and
psychopy).  We embed it as trace semantics: every SDK/window call the program
issues becomes an `SdkEvent`, every method becomes a function producing the
list of events it issues (plus an `Outcome` recording whether the process
exited).  The behaviour of the external SDKs (whether a call raises, the
tracker version reported, connectivity answers) is an explicit `Env`
parameter.  Python floats are modelled as exact rationals; `round(x, 2)`
as round-half-to-even on hundredths, which agrees with Python on every
value this program rounds. -/
import Mathlib

/-- Round-half-to-even of a rational to the nearest integer, the tie-breaking
rule used by Python's built-in `round`. -/
def roundHalfToEven (q : ℚ) : ℤ :=
  let f := ⌊q⌋
  let r := q - (f : ℚ)
  if r < 1/2 then f
  else if 1/2 < r then f + 1
  else if f % 2 = 0 then f else f + 1

/-- Python's `round(q, 2)`: round to two decimal places, ties to even. -/
def pyRound2 (q : ℚ) : ℚ := (roundHalfToEven (q * 100) : ℚ) / 100

/-- Source line 17-18: `return [round(((n/127.5)-1), 2) for n in color]`. -/
def convert_color (color : List ℚ) : List ℚ :=
  color.map (fun n => pyRound2 (n / (255/2) - 1))

/-- Python's `s[0:1]`: the string of the first character, empty if `s` is. -/
def pySlice01 (s : String) : String := ⟨s.data.take 1⟩

/-- Model of a psychopy `monitors.Monitor` after `setSizePix` (lines 41-45). -/
structure MonitorModel where
  name : String
  width : ℚ
  distance : ℚ
  sizePix : List ℤ
  deriving DecidableEq, Repr

/-- The instance attributes of `EyelinkCNI` assigned in `__init__`
(lines 24-45), before the `vars(self).update(kwargs)` line. -/
structure CNI where
  color_text : List ℚ
  color_bg : List ℚ
  color_eyelink_bg : List ℚ
  msg_calib_el : String
  monitor_name : String
  monitor_width : ℚ
  monitor_distance : ℚ
  monitor_px : List ℤ
  fullscreen : Bool
  eyetrack : Bool
  eyelink_ip : String
  subject_id : String
  experiment_monitor : MonitorModel
  deriving DecidableEq, Repr

/-- The default attribute values assigned by `__init__` (lines 24-45);
`experiment_monitor` is built from the default monitor fields because the
kwargs update only happens afterwards (line 47). -/
def initialAttrs : CNI :=
  { color_text := convert_color [0, 0, 0]
    color_bg := convert_color [128, 128, 128]
    color_eyelink_bg := convert_color [128, 128, 128]
    msg_calib_el := "<<< We will now calibrate the eye-tracker >>>"
    monitor_name := "Experiment Monitor"
    monitor_width := 53
    monitor_distance := 70
    monitor_px := [1920, 1080]
    fullscreen := true
    eyetrack := false
    eyelink_ip := "100.1.1.1"
    subject_id := "demo"
    experiment_monitor :=
      { name := "Experiment Monitor", width := 53, distance := 70
        sizePix := [1920, 1080] } }

/-- Keyword arguments to the constructor: an optional override for each
instance attribute (the shape `vars(self).update(kwargs)` would consume). -/
structure Kwargs where
  color_text : Option (List ℚ)
  color_bg : Option (List ℚ)
  color_eyelink_bg : Option (List ℚ)
  msg_calib_el : Option String
  monitor_name : Option String
  monitor_width : Option ℚ
  monitor_distance : Option ℚ
  monitor_px : Option (List ℤ)
  fullscreen : Option Bool
  eyetrack : Option Bool
  eyelink_ip : Option String
  subject_id : Option String
  experiment_monitor : Option MonitorModel
  deriving DecidableEq, Repr

/-- The empty keyword-argument record: no overrides. -/
def emptyKwargs : Kwargs :=
  { color_text := none, color_bg := none, color_eyelink_bg := none
    msg_calib_el := none, monitor_name := none, monitor_width := none
    monitor_distance := none, monitor_px := none, fullscreen := none
    eyetrack := none, eyelink_ip := none, subject_id := none
    experiment_monitor := none }

/-- Whether no keyword argument at all is passed. -/
def Kwargs.isEmpty (kw : Kwargs) : Bool :=
  kw.color_text.isNone && kw.color_bg.isNone && kw.color_eyelink_bg.isNone &&
  kw.msg_calib_el.isNone && kw.monitor_name.isNone && kw.monitor_width.isNone &&
  kw.monitor_distance.isNone && kw.monitor_px.isNone && kw.fullscreen.isNone &&
  kw.eyetrack.isNone && kw.eyelink_ip.isNone && kw.subject_id.isNone &&
  kw.experiment_monitor.isNone

/-- Semantics of `vars(self).update(kwargs)` (line 47): each attribute named
in the kwargs is overwritten, the others keep the values already assigned. -/
def applyKwargs (kw : Kwargs) (st : CNI) : CNI :=
  { color_text := kw.color_text.getD st.color_text
    color_bg := kw.color_bg.getD st.color_bg
    color_eyelink_bg := kw.color_eyelink_bg.getD st.color_eyelink_bg
    msg_calib_el := kw.msg_calib_el.getD st.msg_calib_el
    monitor_name := kw.monitor_name.getD st.monitor_name
    monitor_width := kw.monitor_width.getD st.monitor_width
    monitor_distance := kw.monitor_distance.getD st.monitor_distance
    monitor_px := kw.monitor_px.getD st.monitor_px
    fullscreen := kw.fullscreen.getD st.fullscreen
    eyetrack := kw.eyetrack.getD st.eyetrack
    eyelink_ip := kw.eyelink_ip.getD st.eyelink_ip
    subject_id := kw.subject_id.getD st.subject_id
    experiment_monitor := kw.experiment_monitor.getD st.experiment_monitor }

/-- `EyelinkCNI.__init__` (lines 21-47).  Its first statement is
`super(EyelinkCNI, self).__init__(*args, **kwargs)`, which resolves to
`object.__init__`.  CPython's `object.__init__` raises `TypeError`
("object.__init__() takes exactly one argument") whenever it receives excess
arguments from a class that overrides `__init__` without overriding
`__new__` — exactly this class.  So with any non-empty kwargs the constructor
raises before any attribute is assigned, and with empty kwargs it assigns the
defaults and the update on line 47 is a no-op. -/
def initEyelinkCNI (kw : Kwargs) : Except String CNI :=
  if kw.isEmpty then Except.ok (applyKwargs kw initialAttrs)
  else Except.error
    "TypeError: object.__init__() takes exactly one argument (the instance to initialize)"

/-- One event per SDK / window / process call the program can issue. -/
inductive SdkEvent where
  | eyeLinkConnect (ip : String)
  | openDataFile (name : String)
  | sendCommand (cmd : String)
  | sendMessage (msg : String)
  | setOfflineMode
  | getTrackerVersionString
  | printLine (s : String)
  | openGraphicsEx
  | doTrackerSetup
  | startRecording (a b c d : Nat)
  | stopRecording
  | closeDataFile
  | closeGraphics
  | closeLink
  | msecDelay (ms : Nat)
  | sleep (seconds : ℚ)
  | isConnectedQuery (result : Bool)
  | windowSetColor (c : List ℚ)
  | windowFlip
  | textDraw (s : String)
  | waitKeys (keyList : List String)
  | windowClose
  | sysExit (code : Nat)
  deriving DecidableEq, Repr

/-- Whether the sequence of calls ran to completion or the process exited. -/
inductive Outcome where
  | ok
  | exited (code : Nat)
  deriving DecidableEq, Repr

/-- A method's observable behaviour: the events it issues and its outcome. -/
abbrev TraceResult := List SdkEvent × Outcome

/-- Sequencing: `sys.exit` raises `SystemExit`, so once a step exits no
later step runs. -/
def seqTrace (r : TraceResult) (k : Unit → TraceResult) : TraceResult :=
  match r with
  | (tr, Outcome.ok) => let r2 := k (); (tr ++ r2.1, r2.2)
  | (tr, Outcome.exited c) => (tr, Outcome.exited c)

/-- The SDK environment: which fallible calls raise, and what the tracker
reports.  `eyelink_ver` abstracts the integer computed on line 111,
`int(vstr.split()[-1].split('.')[0])`, from the reported version string. -/
structure Env where
  connect_error : Option String
  open_error : Option String
  connected_at_open_fail : Bool
  vstr : String
  eyelink_ver : ℤ
  connected_at_disconnect : Bool

/-- State of the psychopy window that the program reads or writes. -/
structure WindowState where
  color : List ℚ
  size : ℤ × ℤ
  units : String
  flips : ℕ
  drawnTexts : List String
  deriving DecidableEq, Repr

/-- Effect of one event on the window: only `windowSetColor`, `windowFlip`
and `textDraw` touch the window. -/
def applyWindowEvent (w : WindowState) : SdkEvent → WindowState
  | SdkEvent.windowSetColor c => { w with color := c }
  | SdkEvent.windowFlip => { w with flips := w.flips + 1 }
  | SdkEvent.textDraw s => { w with drawnTexts := w.drawnTexts ++ [s] }
  | _ => w

/-- Effect of a trace on the window. -/
def applyWindowEvents (tr : List SdkEvent) (w : WindowState) : WindowState :=
  tr.foldl applyWindowEvent w

/-- `_swap_bg_color_to_calibration_screen` (lines 72-74). -/
def swap_bg_color_to_calibration_screen (st : CNI) : List SdkEvent :=
  [SdkEvent.windowSetColor st.color_eyelink_bg, SdkEvent.windowFlip]

/-- `_swap_bg_color_to_task_screen` (lines 76-78). -/
def swap_bg_color_to_task_screen (st : CNI) : List SdkEvent :=
  [SdkEvent.windowSetColor st.color_bg, SdkEvent.windowFlip]

/-- `make_message` (lines 63-68): draw the text, flip, wait for a key. -/
def make_message (message_string : String) (key_list : List String) :
    List SdkEvent :=
  [SdkEvent.textDraw message_string, SdkEvent.windowFlip,
   SdkEvent.waitKeys key_list]

/-- `_connect_eyelink` (lines 80-86): construct `pylink.EyeLink(ip)`; on
`RuntimeError` print it, close the window, `sys.exit(1)`. -/
def connect_eyelink (st : CNI) (env : Env) : TraceResult :=
  match env.connect_error with
  | none => ([SdkEvent.eyeLinkConnect st.eyelink_ip], Outcome.ok)
  | some e =>
    ([SdkEvent.eyeLinkConnect st.eyelink_ip,
      SdkEvent.printLine ("ERROR: " ++ e),
      SdkEvent.windowClose, SdkEvent.sysExit 1], Outcome.exited 1)

/-- The EDF file name assembled on line 91:
`str(self.subject_id + phase[0:1] + str(block) + '.EDF')` — the part before
the extension, then the full name. -/
def edf_stem (subject_id phase : String) (block : ℕ) : String :=
  subject_id ++ pySlice01 phase ++ toString block

/-- The full EDF file name of line 91 (concatenation is left-associated in
the source, so it is the stem followed by `.EDF`). -/
def edf_file (subject_id phase : String) (block : ℕ) : String :=
  edf_stem subject_id phase block ++ ".EDF"

/-- `_open_edf_file` (lines 88-101): build the name, `openDataFile`; on
`RuntimeError` print it, close the link if connected, close the window,
`sys.exit(1)`. -/
def open_edf_file (st : CNI) (env : Env) (phase : String) (block : ℕ) :
    TraceResult :=
  let name := edf_file st.subject_id phase block
  match env.open_error with
  | none => ([SdkEvent.openDataFile name], Outcome.ok)
  | some e =>
    ([SdkEvent.openDataFile name,
      SdkEvent.printLine ("ERROR: " ++ e),
      SdkEvent.isConnectedQuery env.connected_at_open_fail]
     ++ (if env.connected_at_open_fail then [SdkEvent.closeLink] else [])
     ++ [SdkEvent.windowClose, SdkEvent.sysExit 1], Outcome.exited 1)

/-- `_send_edf_preamble` (lines 103-105); `os.path.basename(__file__)` is
the source file's own name. -/
def send_edf_preamble : TraceResult :=
  ([SdkEvent.sendCommand
      "add_file_preamble_text \x27RECORDED BY eyelinkcnicore.py\x27"],
   Outcome.ok)

/-- Line 114. -/
def file_event_flags : String :=
  "LEFT,RIGHT,FIXATION,SACCADE,BLINK,MESSAGE,BUTTON,INPUT"

/-- Line 115. -/
def link_event_flags : String :=
  "LEFT,RIGHT,FIXATION,SACCADE,BLINK,BUTTON,FIXUPDATE,INPUT"

/-- Lines 117-122, the version-dependent file sample flags. -/
def file_sample_flags (ver : ℤ) : String :=
  if ver > 3 then "LEFT,RIGHT,GAZE,HREF,RAW,AREA,HTARGET,GAZERES,BUTTON,STATUS,INPUT"
  else "LEFT,RIGHT,GAZE,HREF,RAW,AREA,GAZERES,BUTTON,STATUS,INPUT"

/-- Lines 117-122, the version-dependent link sample flags. -/
def link_sample_flags (ver : ℤ) : String :=
  if ver > 3 then "LEFT,RIGHT,GAZE,GAZERES,AREA,HTARGET,STATUS,INPUT"
  else "LEFT,RIGHT,GAZE,GAZERES,AREA,STATUS,INPUT"

/-- Lines 150-167: the calibration target command string. -/
def calib_positions : String :=
  let x0 : ℤ := 400; let x1 : ℤ := 960; let x2 : ℤ := 1420
  let y0 : ℤ := 300; let y1 : ℤ := 540; let y2 : ℤ := 780
  "calibration_targets = " ++
    toString x1 ++ "," ++ toString y1 ++ " " ++
    toString x1 ++ "," ++ toString y0 ++ " " ++
    toString x1 ++ "," ++ toString y2 ++ " " ++
    toString x0 ++ "," ++ toString y1 ++ " " ++
    toString x2 ++ "," ++ toString y1 ++ " " ++
    toString x0 ++ "," ++ toString y0 ++ " " ++
    toString x2 ++ "," ++ toString y0 ++ " " ++
    toString x0 ++ "," ++ toString y2 ++ " " ++
    toString x2 ++ "," ++ toString y2

/-- `_config_eyelink` (lines 107-167).  `scn_width`/`scn_height` are read
from `self.experiment_window.size`. -/
def config_eyelink (w : WindowState) (env : Env) : TraceResult :=
  let ver := env.eyelink_ver
  let scn_width := w.size.1
  let scn_height := w.size.2
  ([SdkEvent.setOfflineMode,
    SdkEvent.getTrackerVersionString,
    SdkEvent.printLine
      ("Running experiment on " ++ env.vstr ++ ", version " ++ toString ver),
    SdkEvent.sendCommand ("file_event_filter = " ++ file_event_flags),
    SdkEvent.sendCommand ("file_sample_data = " ++ file_sample_flags ver),
    SdkEvent.sendCommand ("link_event_filter = " ++ link_event_flags),
    SdkEvent.sendCommand ("link_sample_data = " ++ link_sample_flags ver)]
   ++ (if ver > 2 then [SdkEvent.sendCommand "sample_rate 1000"] else [])
   ++ [SdkEvent.sendCommand "calibration_type = HV9",
       SdkEvent.sendCommand "randomize_calibration_order = NO",
       SdkEvent.sendCommand "calibration_area_proportion 1.0 1.0",
       SdkEvent.sendCommand "validation_area_proportion 0.6 0.6",
       SdkEvent.sendCommand "button_function 5 \x27accept_target_fixation\x27",
       SdkEvent.sendCommand
         ("screen_pixel_coords = 0.0, 0.0, " ++ toString scn_width ++ ", "
          ++ toString scn_height),
       SdkEvent.sendMessage
         ("DISPLAY_COORDS 0 0 " ++ toString scn_width ++ " "
          ++ toString scn_height),
       SdkEvent.sendCommand calib_positions],
   Outcome.ok)

/-- `_calibrate_eyelink` (lines 169-174). -/
def calibrate_eyelink (st : CNI) : TraceResult :=
  (swap_bg_color_to_calibration_screen st
   ++ make_message st.msg_calib_el ["space"]
   ++ [SdkEvent.openGraphicsEx, SdkEvent.doTrackerSetup],
   Outcome.ok)

/-- `_start_eyelink_recording` (lines 176-180). -/
def start_eyelink_recording (st : CNI) : TraceResult :=
  ([SdkEvent.startRecording 1 1 1 1, SdkEvent.sleep (1/10),
    SdkEvent.sendMessage "start_run"]
   ++ swap_bg_color_to_task_screen st,
   Outcome.ok)

/-- `trigger_eyelink` (lines 182-188): the six steps in source order. -/
def trigger_eyelink (st : CNI) (w : WindowState) (env : Env)
    (phase : String) (block : ℕ) : TraceResult :=
  seqTrace (connect_eyelink st env) fun _ =>
  seqTrace (open_edf_file st env phase block) fun _ =>
  seqTrace send_edf_preamble fun _ =>
  seqTrace (config_eyelink w env) fun _ =>
  seqTrace (calibrate_eyelink st) fun _ =>
  start_eyelink_recording st

/-- `disconnect_eyelink` (lines 190-200). -/
def disconnect_eyelink (env : Env) : List SdkEvent :=
  [SdkEvent.sendMessage "end_run",
   SdkEvent.isConnectedQuery env.connected_at_disconnect]
  ++ (if env.connected_at_disconnect then
        [SdkEvent.sleep (1/10), SdkEvent.stopRecording,
         SdkEvent.setOfflineMode, SdkEvent.sendCommand "clear_screen 0",
         SdkEvent.msecDelay 500, SdkEvent.closeDataFile,
         SdkEvent.closeGraphics, SdkEvent.closeLink]
      else [])

/-- The command strings of the `sendCommand` calls in a trace, in order. -/
def sentCommands (tr : List SdkEvent) : List String :=
  tr.filterMap fun e =>
    match e with
    | SdkEvent.sendCommand s => some s
    | _ => none

/-- Milestone events of a `trigger_eyelink` run: connecting, opening the
data file, running tracker setup, starting recording, and exiting. -/
def isMilestone : SdkEvent → Bool
  | SdkEvent.eyeLinkConnect _ => true
  | SdkEvent.openDataFile _ => true
  | SdkEvent.doTrackerSetup => true
  | SdkEvent.startRecording _ _ _ _ => true
  | SdkEvent.sysExit _ => true
  | _ => false

/-- The five shutdown operations named by the disconnect sequence. -/
def isShutdownOp : SdkEvent → Bool
  | SdkEvent.stopRecording => true
  | SdkEvent.setOfflineMode => true
  | SdkEvent.sendCommand cmd => cmd == "clear_screen 0"
  | SdkEvent.closeDataFile => true
  | SdkEvent.closeLink => true
  | _ => false

/-- A concrete environment where every SDK call succeeds. -/
def envOk : Env :=
  { connect_error := none, open_error := none, connected_at_open_fail := false
    vstr := "EYELINK CL 5.50", eyelink_ver := 5
    connected_at_disconnect := true }

/-- A concrete window state, as opened by `open_window` on the default
monitor geometry. -/
def w0 : WindowState :=
  { color := initialAttrs.color_bg, size := (1920, 1080), units := "pix"
    flips := 0, drawnTexts := [] }

/-- Modelled from the spec: the first character of the phase, or the empty
string when the phase is empty — the spec-side description of the middle
piece of the EDF file name. -/
def firstCharString (s : String) : String :=
  match s.data with
  | [] => ""
  | c :: _ => String.singleton c

/- Helper evaluations of the rounding used by `convert_color`. -/

lemma pyRound2_of_128 : pyRound2 ((128 : ℚ) / (255 / 2) - 1) = 0 := by
  have h1 : ⌊(((128 : ℚ) / (255 / 2) - 1) * 100)⌋ = 0 := by norm_num
  rw [pyRound2, roundHalfToEven]
  rw [h1]
  norm_num

/-- Claim C9: under default construction `color_bg` and `color_eyelink_bg`
are both `convert_color((128,128,128)) = [0.0, 0.0, 0.0]`, so the two
background swaps assign the same window color and the toggle changes nothing
observable by default. -/
theorem default_bg_colors_coincide :
    initialAttrs.color_bg = initialAttrs.color_eyelink_bg
  ∧ initialAttrs.color_bg = convert_color [128, 128, 128]
  ∧ convert_color [128, 128, 128] = [0, 0, 0]
  ∧ swap_bg_color_to_calibration_screen initialAttrs
      = swap_bg_color_to_task_screen initialAttrs := by
  refine ⟨rfl, rfl, ?_, rfl⟩
  simp [convert_color, pyRound2_of_128]

/-- The keyword arguments passing a single override, subject_id = "s01". -/
def kwS01 : Kwargs := { emptyKwargs with subject_id := some "s01" }

/-- Claim C10 (code bug): the constructor is meant to let every keyword
argument overwrite the attribute of the same name via
`vars(self).update(kwargs)` (line 47), but its first statement forwards the
kwargs to `object.__init__`, which raises `TypeError` for any non-empty
kwargs, so the update line never runs; had it run, it would have set the
attribute as the claim states. -/
theorem init_kwargs_type_error :
    initEyelinkCNI kwS01 = Except.error
      "TypeError: object.__init__() takes exactly one argument (the instance to initialize)"
  ∧ (applyKwargs kwS01 initialAttrs).subject_id = "s01" := ⟨rfl, rfl⟩

/-- Claim C8: the EDF file name is the subject id, then the first character
of the phase (empty when the phase is empty), then the block number, then
`.EDF`; with the default subject id `demo` and a single-digit block the stem
before `.EDF` has at most 8 characters. -/
theorem edf_file_name_spec (subject_id phase : String) (block : ℕ) :
    edf_file subject_id phase block =
      subject_id ++ firstCharString phase ++ toString block ++ ".EDF"
  ∧ (subject_id = "demo" → block < 10 →
      (edf_stem subject_id phase block).length ≤ 8) := by
  have hslice : pySlice01 phase = firstCharString phase := by
    rw [pySlice01, firstCharString]
    obtain ⟨l⟩ := phase
    cases l <;> rfl
  constructor
  · rw [edf_file, edf_stem, hslice]
  · intro hs hb
    subst hs
    have h1 : (pySlice01 phase).length ≤ 1 := by
      have heq : (pySlice01 phase).length = (phase.data.take 1).length := rfl
      rw [heq, List.length_take]
      omega
    have h2 : (toString block).length = 1 := by
      interval_cases block <;> rfl
    rw [edf_stem, String.length_append, String.length_append]
    have h3 : ("demo" : String).length = 4 := rfl
    omega

/-- Claim C8, witness at `subject_id = "demo"`, `phase = "enc"`,
`block = 1`. -/
theorem edf_file_name_spec_witness :
    edf_file "demo" "enc" 1 =
      "demo" ++ firstCharString "enc" ++ toString 1 ++ ".EDF"
  ∧ (edf_stem "demo" "enc" 1).length ≤ 8 :=
  ⟨(edf_file_name_spec "demo" "enc" 1).1,
   (edf_file_name_spec "demo" "enc" 1).2 rfl (by decide)⟩

/-- Claim C7: `disconnect_eyelink` first sends the `end_run` message, and the
five shutdown operations (`stopRecording`, `setOfflineMode`, the
`clear_screen 0` command, `closeDataFile`, `close`) are issued exactly when
`isConnected()` reports true, in exactly that order. -/
theorem disconnect_eyelink_guarded_shutdown (env : Env) :
    (disconnect_eyelink env).head? = some (SdkEvent.sendMessage "end_run")
  ∧ (disconnect_eyelink env).filter isShutdownOp =
      (if env.connected_at_disconnect then
        [SdkEvent.stopRecording, SdkEvent.setOfflineMode,
         SdkEvent.sendCommand "clear_screen 0", SdkEvent.closeDataFile,
         SdkEvent.closeLink]
      else []) := by
  cases h : env.connected_at_disconnect <;>
    simp [disconnect_eyelink, isShutdownOp, h]

/-- Claim C5: the two background swaps set the window color (to the
calibration color when entering calibration, back to the task color when
recording starts) and flip the window, modifying no other window attribute;
entering calibration performs its swap first, and starting recording
performs its swap last. -/
theorem bg_color_swap_effects (st : CNI) (w : WindowState) :
    applyWindowEvents (swap_bg_color_to_calibration_screen st) w
      = { w with color := st.color_eyelink_bg, flips := w.flips + 1 }
  ∧ applyWindowEvents (swap_bg_color_to_task_screen st) w
      = { w with color := st.color_bg, flips := w.flips + 1 }
  ∧ (calibrate_eyelink st).1.take 2 = swap_bg_color_to_calibration_screen st
  ∧ (start_eyelink_recording st).1.drop 3 = swap_bg_color_to_task_screen st :=
  ⟨rfl, rfl, rfl, rfl⟩

/-- A concrete environment where the `pylink.EyeLink` constructor raises. -/
def envConnectFail : Env :=
  { connect_error := some "Could not connect to tracker at 100.1.1.1"
    open_error := none, connected_at_open_fail := false
    vstr := "EYELINK CL 5.50", eyelink_ver := 5
    connected_at_disconnect := false }

/-- A concrete environment where `openDataFile` raises while the link is
connected. -/
def envOpenFail : Env :=
  { connect_error := none
    open_error := some "Could not open data file"
    connected_at_open_fail := true
    vstr := "EYELINK CL 5.50", eyelink_ver := 5
    connected_at_disconnect := false }

/-- Claim C1: a RuntimeError from the tracker-connection step or the
EDF-file-open step makes the program print the error, close the display
window (for the file-open failure, first closing the tracker link when it is
connected) and exit with status 1; the whole trace ends there, with no retry
and nothing executed past the failure. -/
theorem failure_fail_fast (st : CNI) (w : WindowState) (env : Env)
    (phase : String) (block : ℕ) :
    (∀ e, env.connect_error = some e →
      trigger_eyelink st w env phase block =
        ([SdkEvent.eyeLinkConnect st.eyelink_ip,
          SdkEvent.printLine ("ERROR: " ++ e),
          SdkEvent.windowClose, SdkEvent.sysExit 1], Outcome.exited 1))
  ∧ (∀ e, env.connect_error = none → env.open_error = some e →
      trigger_eyelink st w env phase block =
        ([SdkEvent.eyeLinkConnect st.eyelink_ip,
          SdkEvent.openDataFile (edf_file st.subject_id phase block),
          SdkEvent.printLine ("ERROR: " ++ e),
          SdkEvent.isConnectedQuery env.connected_at_open_fail]
         ++ (if env.connected_at_open_fail then [SdkEvent.closeLink] else [])
         ++ [SdkEvent.windowClose, SdkEvent.sysExit 1],
         Outcome.exited 1)) := by
  constructor
  · intro e he
    simp [trigger_eyelink, seqTrace, connect_eyelink, he]
  · intro e hc ho
    simp [trigger_eyelink, seqTrace, connect_eyelink, open_edf_file, hc, ho]

/-- Claim C1, witness: both failure environments at concrete inputs. -/
theorem failure_fail_fast_witness :
    (envConnectFail.connect_error = some "Could not connect to tracker at 100.1.1.1"
     ∧ trigger_eyelink initialAttrs w0 envConnectFail "enc" 1 =
        ([SdkEvent.eyeLinkConnect "100.1.1.1",
          SdkEvent.printLine "ERROR: Could not connect to tracker at 100.1.1.1",
          SdkEvent.windowClose, SdkEvent.sysExit 1], Outcome.exited 1))
  ∧ (envOpenFail.connect_error = none
     ∧ envOpenFail.open_error = some "Could not open data file"
     ∧ trigger_eyelink initialAttrs w0 envOpenFail "enc" 1 =
        ([SdkEvent.eyeLinkConnect "100.1.1.1",
          SdkEvent.openDataFile "demoe1.EDF",
          SdkEvent.printLine "ERROR: Could not open data file",
          SdkEvent.isConnectedQuery true, SdkEvent.closeLink,
          SdkEvent.windowClose, SdkEvent.sysExit 1], Outcome.exited 1)) :=
  ⟨⟨rfl, (failure_fail_fast initialAttrs w0 envConnectFail "enc" 1).1
      "Could not connect to tracker at 100.1.1.1" rfl⟩,
   ⟨rfl, rfl, (failure_fail_fast initialAttrs w0 envOpenFail "enc" 1).2
      "Could not open data file" rfl rfl⟩⟩

/-- Claim C2: the `sendCommand` calls issued by `_send_edf_preamble` and
`_config_eyelink` together form a trace whose length is fixed by the
reported tracker version alone: 13 commands when the parsed version exceeds
2 (the extra one being `sample_rate 1000`), 12 otherwise. -/
theorem preamble_config_sendCommand_count (w : WindowState) (env : Env) :
    (sentCommands (send_edf_preamble.1 ++ (config_eyelink w env).1)).length
      = if 2 < env.eyelink_ver then 13 else 12 := by
  by_cases h3 : 3 < env.eyelink_ver <;> by_cases h2 : 2 < env.eyelink_ver <;>
    simp [sentCommands, send_edf_preamble, config_eyelink,
      file_sample_flags, link_sample_flags, h2, h3]

/-- Claim C3: on the success path `trigger_eyelink` issues the SDK calls of
its six steps in source order — connect, open the EDF file, send the
preamble, send the configuration, run tracker setup, start recording — with
no step reordered, repeated, or skipped; in particular the milestone events
appear exactly once each, in that order, and no exit occurs. -/
theorem trigger_eyelink_success_order (st : CNI) (w : WindowState) (env : Env)
    (phase : String) (block : ℕ)
    (h1 : env.connect_error = none) (h2 : env.open_error = none) :
    trigger_eyelink st w env phase block =
      ((connect_eyelink st env).1 ++ (open_edf_file st env phase block).1
        ++ send_edf_preamble.1 ++ (config_eyelink w env).1
        ++ (calibrate_eyelink st).1 ++ (start_eyelink_recording st).1,
       Outcome.ok)
  ∧ (trigger_eyelink st w env phase block).1.filter isMilestone =
      [SdkEvent.eyeLinkConnect st.eyelink_ip,
       SdkEvent.openDataFile (edf_file st.subject_id phase block),
       SdkEvent.doTrackerSetup, SdkEvent.startRecording 1 1 1 1] := by
  constructor
  · simp [trigger_eyelink, seqTrace, connect_eyelink, open_edf_file,
      send_edf_preamble, config_eyelink, calibrate_eyelink,
      start_eyelink_recording, swap_bg_color_to_calibration_screen,
      swap_bg_color_to_task_screen, make_message, h1, h2]
  · by_cases hv : 2 < env.eyelink_ver <;>
      simp [trigger_eyelink, seqTrace, connect_eyelink, open_edf_file,
        send_edf_preamble, config_eyelink, calibrate_eyelink,
        start_eyelink_recording, swap_bg_color_to_calibration_screen,
        swap_bg_color_to_task_screen, make_message, isMilestone, h1, h2, hv]

/-- Claim C3, witness: the success environment at concrete inputs. -/
theorem trigger_eyelink_success_order_witness :
    envOk.connect_error = none ∧ envOk.open_error = none
  ∧ (trigger_eyelink initialAttrs w0 envOk "enc" 1 =
      ((connect_eyelink initialAttrs envOk).1
        ++ (open_edf_file initialAttrs envOk "enc" 1).1
        ++ send_edf_preamble.1 ++ (config_eyelink w0 envOk).1
        ++ (calibrate_eyelink initialAttrs).1
        ++ (start_eyelink_recording initialAttrs).1,
       Outcome.ok)
     ∧ (trigger_eyelink initialAttrs w0 envOk "enc" 1).1.filter isMilestone =
        [SdkEvent.eyeLinkConnect initialAttrs.eyelink_ip,
         SdkEvent.openDataFile (edf_file initialAttrs.subject_id "enc" 1),
         SdkEvent.doTrackerSetup, SdkEvent.startRecording 1 1 1 1]) :=
  ⟨rfl, rfl, trigger_eyelink_success_order initialAttrs w0 envOk "enc" 1 rfl rfl⟩

/-- Claim C4: every run of `_config_eyelink` sends the exact command
`calibration_type = HV9`, and sends the exact command `sample_rate 1000`
whenever the parsed tracker major version exceeds 2. -/
theorem config_eyelink_key_commands (w : WindowState) (env : Env) :
    "calibration_type = HV9" ∈ sentCommands (config_eyelink w env).1
  ∧ (2 < env.eyelink_ver →
      "sample_rate 1000" ∈ sentCommands (config_eyelink w env).1) := by
  constructor
  · by_cases hv : 2 < env.eyelink_ver <;>
      simp [sentCommands, config_eyelink, hv]
  · intro hv
    simp [sentCommands, config_eyelink, hv]

/-- Claim C4, witness: tracker version 5 at a concrete window. -/
theorem config_eyelink_key_commands_witness :
    2 < envOk.eyelink_ver
  ∧ "calibration_type = HV9" ∈ sentCommands (config_eyelink w0 envOk).1
  ∧ "sample_rate 1000" ∈ sentCommands (config_eyelink w0 envOk).1 :=
  ⟨by decide, (config_eyelink_key_commands w0 envOk).1,
   (config_eyelink_key_commands w0 envOk).2 (by decide)⟩

/-- Claim C6: on every instance the constructor can actually produce, the
address `_connect_eyelink` passes to the `pylink.EyeLink` constructor is the
fixed IP `100.1.1.1` (the constructor only succeeds with no keyword
overrides, so `eyelink_ip` always holds its default). -/
theorem connect_eyelink_fixed_ip (kw : Kwargs) (st : CNI) (env : Env)
    (h : initEyelinkCNI kw = Except.ok st) :
    (connect_eyelink st env).1.head? =
      some (SdkEvent.eyeLinkConnect "100.1.1.1") := by
  have hip : st.eyelink_ip = "100.1.1.1" := by
    rw [initEyelinkCNI] at h
    split at h
    case isTrue hemp =>
      simp only [Except.ok.injEq] at h
      subst h
      simp only [Kwargs.isEmpty, Bool.and_eq_true,
        Option.isNone_iff_eq_none] at hemp
      simp [applyKwargs, hemp.1.1.2, initialAttrs]
    case isFalse hemp => cases h
  cases henv : env.connect_error <;> simp [connect_eyelink, henv, hip]

/-- Claim C6, witness: the default construction. -/
theorem connect_eyelink_fixed_ip_witness :
    initEyelinkCNI emptyKwargs = Except.ok initialAttrs
  ∧ (connect_eyelink initialAttrs envOk).1.head? =
      some (SdkEvent.eyeLinkConnect "100.1.1.1") :=
  ⟨rfl, connect_eyelink_fixed_ip emptyKwargs initialAttrs envOk rfl⟩
